import Mathlib

unseal Rat.mul Rat.add Rat.sub Rat.inv Rat.ofScientific

/-!
Verification of the car-rental backend (`main.py`, `schemas.py`).

Shallow embedding conventions:

* Calendar dates are modelled as integers (a day number).  The code stores
  dates as ISO-8601 `yyyy-mm-dd` text and compares those strings
  lexicographically in Mongo queries; for well-formed ISO dates that order
  coincides with chronological order, which the integer order models.
  Python's `(d2 - d1).days` becomes plain integer subtraction.
* Floats (`price_per_day`, `rating`, `total_cost`) are modelled as rationals.
  Python's `round(x, 2)` is modelled as decimal round-half-to-even at two
  places (`round2` below).
* The Mongo store is modelled per collection: the `car` collection as an
  association list from object-id strings to `Car` values, the `booking`
  collection as a list of `BookingDoc`.  Store ids are their hex strings;
  `bson.ObjectId` validity is the 24-hex-character check.
* The `db is None` early returns (service-unavailable branches) are outside
  the model: every modelled operation receives its collections, so the
  database is present.
-/

namespace CarRental

/-- Validity check of `bson.ObjectId.is_valid` for string input: exactly 24
hexadecimal characters. -/
def ObjectId.isValid (s : String) : Bool :=
  s.length == 24 && s.toList.all (fun c =>
    c.isDigit || (decide ('a' ≤ c) && decide (c ≤ 'f'))
      || (decide ('A' ≤ c) && decide (c ≤ 'F')))

/-- Floor of a rational as an integer (used by `roundHalfEven`). -/
def ratFloor (q : ℚ) : ℤ := Int.fdiv q.num (q.den : ℤ)

/-- Round a rational to the nearest integer, ties to even: the behaviour of
Python's builtin `round` on exact values. -/
def roundHalfEven (q : ℚ) : ℤ :=
  let n := ratFloor q
  let frac := q - (n : ℚ)
  if frac < 1/2 then n
  else if 1/2 < frac then n + 1
  else if n % 2 = 0 then n else n + 1

/-- Python's `round(x, 2)`: round to two decimal places, ties to even. -/
def round2 (q : ℚ) : ℚ := (roundHalfEven (q * 100) : ℚ) / 100

/-- The `Car` schema (`schemas.py`, class `Car`): field names and defaults as
declared there.  `seats` carries the pydantic constraints `ge=1, le=9`, which
are recorded separately in `Car.schemaValid`. -/
structure Car where
  title : String
  brand : String
  model : String
  year : Int
  type : String
  transmission : String
  fuel_type : String
  seats : Int
  luggage : Int := 0
  price_per_day : ℚ
  images : List String := []
  rating : ℚ := 4.5
  featured : Bool := false
deriving DecidableEq, Repr

/-- The pydantic range constraints on `Car` fields that the write path
enforces (`seats: ge=1 le=9`, `luggage ≥ 0`, `price_per_day ≥ 0`,
`rating ∈ [0, 5]`). -/
def Car.schemaValid (c : Car) : Prop :=
  1 ≤ c.seats ∧ c.seats ≤ 9 ∧ 0 ≤ c.luggage ∧ 0 ≤ c.price_per_day
    ∧ 0 ≤ c.rating ∧ c.rating ≤ 5

/-- The `Booking` request schema (`schemas.py`, class `Booking`, used as the
`BookingIn` payload of `POST /api/bookings`).  Field defaults mirror the
pydantic defaults; in particular `status` defaults to `"active"`, so a client
that does not supply a status yields a payload with `status = "active"`. -/
structure Booking where
  car_id : String
  user_name : String
  email : String
  phone : Option String := none
  pickup_date : Int
  dropoff_date : Int
  pickup_location : Option String := none
  dropoff_location : Option String := none
  total_cost : Option ℚ := none
  status : String := "active"
deriving DecidableEq, Repr

/-- A document of the `booking` collection as persisted by `create_booking`:
the payload's fields with the two dates rendered (still ordered like dates in
this model) and `total_cost` always set by the server. -/
structure BookingDoc where
  car_id : String
  user_name : String
  email : String
  phone : Option String
  pickup_date : Int
  dropoff_date : Int
  pickup_location : Option String
  dropoff_location : Option String
  total_cost : ℚ
  status : String
deriving DecidableEq, Repr

/-- Outcome of `POST /api/bookings` (`create_booking` in `main.py`):
the three HTTPException rejections reachable with the database present, or
success carrying the persisted document and the response's `total_cost` and
`status` fields (the store-generated id is abstracted away). -/
inductive BookingResult where
  | invalidCarId
  | conflict
  | invalidDates
  | carNotFound
  | success (doc : BookingDoc) (total_cost : ℚ) (status : String)
deriving DecidableEq, Repr

/-- The overlap predicate of the `count_documents` query in `create_booking`
(main.py lines 227-233): same `car_id`, status `$in ["active","confirmed"]`,
and `pickup_date $lte` requested dropoff together with
`dropoff_date $gte` requested pickup. -/
def overlapsReq (p : Booking) (b : BookingDoc) : Bool :=
  b.car_id == p.car_id
    && (b.status == "active" || b.status == "confirmed")
    && decide (b.pickup_date ≤ p.dropoff_date)
    && decide (p.pickup_date ≤ b.dropoff_date)

/-- Lookup of `find_one {"_id": ObjectId(car_id)}` in the `car` collection,
modelled as first match in an association list keyed by object-id string. -/
def lookupCar (cars : List (String × Car)) (car_id : String) : Option Car :=
  (cars.find? (fun kv => kv.1 == car_id)).map (fun kv => kv.2)

/-- The document `create_booking` persists: `payload.model_dump()` with the
dates rendered to ISO text and `total_cost` overwritten by the computed
value (main.py lines 246-249). -/
def persistedBooking (p : Booking) (total_cost : ℚ) : BookingDoc :=
  { car_id := p.car_id
    user_name := p.user_name
    email := p.email
    phone := p.phone
    pickup_date := p.pickup_date
    dropoff_date := p.dropoff_date
    pickup_location := p.pickup_location
    dropoff_location := p.dropoff_location
    total_cost := total_cost
    status := p.status }

/-- `create_booking` (main.py lines 216-252) with the database present.
The source order of checks is kept: object-id validity, then the overlap
count, then the non-positive day-count rejection, then the car lookup, then
cost computation and insert. -/
def create_booking (cars : List (String × Car)) (bookings : List BookingDoc)
    (p : Booking) : BookingResult :=
  if ObjectId.isValid p.car_id then
    if 0 < bookings.countP (overlapsReq p) then .conflict
    else if p.dropoff_date - p.pickup_date ≤ 0 then .invalidDates
    else
      match lookupCar cars p.car_id with
      | none => .carNotFound
      | some car =>
        .success
          (persistedBooking p
            (round2 (((p.dropoff_date - p.pickup_date : ℤ) : ℚ) * car.price_per_day)))
          (round2 (((p.dropoff_date - p.pickup_date : ℤ) : ℚ) * car.price_per_day))
          "confirmed"
  else .invalidCarId

/-- ASCII case folding of a character, as a code point. -/
def foldCase (c : Char) : Nat :=
  if decide ('A' ≤ c) && decide (c ≤ 'Z') then c.toNat + 32 else c.toNat

/-- Case-insensitive character equality (ASCII case folding). -/
def eqCI (a b : Char) : Bool := foldCase a == foldCase b

/-- Decides whether `needle` is a case-insensitive prefix of `hay`. -/
def prefixCI : List Char → List Char → Bool
  | [], _ => true
  | _ :: _, [] => false
  | a :: as, b :: bs => eqCI a b && prefixCI as bs

/-- Decides whether `needle` occurs case-insensitively as a contiguous run
inside `hay`. -/
def hasSubCI : List Char → List Char → Bool
  | needle, [] => prefixCI needle []
  | needle, c :: t => prefixCI needle (c :: t) || hasSubCI needle t

/-- Case-insensitive substring match: the semantics of the Mongo filter
`{"$regex": needle, "$options": "i"}` on a metacharacter-free pattern.  On a
pattern containing a regex metacharacter the store interprets the pattern as
a regular expression instead (for example a pattern of a single dot matches
every non-empty field), so statements about the free-text filter are
restricted to `regexFree` patterns, where this function and the source's
filter coincide. -/
def containsCI (hay needle : String) : Bool :=
  hasSubCI needle.toList hay.toList

/-- The characters that PCRE (the store's regex dialect) treats specially:
a pattern avoiding all of them denotes itself literally. -/
def regexMeta (c : Char) : Bool :=
  c == '.' || c == '^' || c == '$' || c == '*' || c == '+' || c == '?'
    || c == '(' || c == ')' || c == '[' || c == ']'
    || c == '\x7b' || c == '\x7d' || c == '|' || c == '\\'

/-- A free-text pattern with no regex metacharacter: on such a pattern the
source's case-insensitive `$regex` filter is exactly a case-insensitive
literal substring match, the semantics of `containsCI`. -/
def regexFree (s : String) : Bool := s.toList.all (fun c => !regexMeta c)

/-- The optional query parameters of `GET /api/cars` (`list_cars` in
`main.py`), except `sort` and `limit` which are passed separately. -/
structure CarQuery where
  q : Option String := none
  type : Option String := none
  brand : Option String := none
  transmission : Option String := none
  fuel_type : Option String := none
  seats : Option Int := none
  min_price : Option ℚ := none
  max_price : Option ℚ := none
deriving DecidableEq, Repr

/-- The predicate denoted by the filter document `filt` that `list_cars`
builds (main.py lines 158-181).  Each clause is guarded exactly as in the
source: `if q:` style truthiness for the six string/int parameters (so a
`none`, an empty string, or a zero `seats` adds no clause) and
`is not None` for the two price bounds. -/
def carMatches (f : CarQuery) (c : Car) : Bool :=
  (match f.q with
    | none => true
    | some s =>
      if s == "" then true
      else containsCI c.title s || containsCI c.brand s || containsCI c.model s)
  && (match f.type with
    | none => true
    | some t => if t == "" then true else c.type == t)
  && (match f.brand with
    | none => true
    | some t => if t == "" then true else c.brand == t)
  && (match f.transmission with
    | none => true
    | some t => if t == "" then true else c.transmission == t)
  && (match f.fuel_type with
    | none => true
    | some t => if t == "" then true else c.fuel_type == t)
  && (match f.seats with
    | none => true
    | some n => if n == 0 then true else c.seats == n)
  && (match f.min_price with
    | none => true
    | some m => decide (m ≤ c.price_per_day))
  && (match f.max_price with
    | none => true
    | some m => decide (c.price_per_day ≤ m))

/-- Insert a car into a list that is sorted by `le`, keeping it sorted. -/
def insertLe (le : Car → Car → Bool) (c : Car) : List Car → List Car
  | [] => [c]
  | d :: ds => if le c d then c :: d :: ds else d :: insertLe le c ds

/-- Sort a list of cars by the comparator `le` (insertion sort): the model of
the store's `sort` cursor modifier, whose contract is an output ordered by
the requested key. -/
def sortLe (le : Car → Car → Bool) : List Car → List Car
  | [] => []
  | c :: cs => insertLe le c (sortLe le cs)

/-- Comparator for `sort=price_asc`: ascending `price_per_day`. -/
def cmpPriceAsc (a b : Car) : Bool := decide (a.price_per_day ≤ b.price_per_day)

/-- Comparator for `sort=price_desc`: descending `price_per_day`. -/
def cmpPriceDesc (a b : Car) : Bool := decide (b.price_per_day ≤ a.price_per_day)

/-- Comparator for `sort=newest`: descending `year`. -/
def cmpNewest (a b : Car) : Bool := decide (b.year ≤ a.year)

/-- Comparator for the default branch (`popular` and anything unrecognized):
descending `rating`. -/
def cmpPopular (a b : Car) : Bool := decide (b.rating ≤ a.rating)

/-- The sort-spec dispatch of `list_cars` (main.py lines 183-191). -/
def sortSpec (sort : String) : Car → Car → Bool :=
  if sort == "price_asc" then cmpPriceAsc
  else if sort == "price_desc" then cmpPriceDesc
  else if sort == "newest" then cmpNewest
  else cmpPopular

/-- Mongo's `limit(n)` cursor modifier: `0` means no limit, otherwise a cap
of `|n|` results, applied after the sort. -/
def applyLimit (limit : Int) (l : List Car) : List Car :=
  if limit = 0 then l else l.take limit.natAbs

/-- `GET /api/cars` (`list_cars` in main.py) over a given `car` collection
with the database present: filter by the built query document, sort by the
sort spec, cap by the limit, in the store's evaluation order. -/
def list_cars (f : CarQuery) (sort : String) (limit : Int)
    (cars : List Car) : List Car :=
  applyLimit limit (sortLe (sortSpec sort) (cars.filter (carMatches f)))

/-- The three `SAMPLE_CARS` seed documents of main.py lines 75-130. -/
def SAMPLE_CARS : List Car :=
  [ { title := "Apex GT-R", brand := "Nissan", model := "GT-R Nismo"
      year := 2022, type := "coupe", transmission := "automatic"
      fuel_type := "petrol", seats := 4, luggage := 2, price_per_day := 320
      images :=
        [ "https://images.unsplash.com/photo-1619767886558-efdc259cde1b?q=80&w=1600&auto=format&fit=crop",
          "https://images.unsplash.com/photo-1606664515524-ed2f786f83f2?q=80&w=1600&auto=format&fit=crop" ]
      rating := 4.8, featured := true },
    { title := "Volt S", brand := "Tesla", model := "Model S Plaid"
      year := 2023, type := "sedan", transmission := "automatic"
      fuel_type := "electric", seats := 5, luggage := 3, price_per_day := 280
      images :=
        [ "https://images.unsplash.com/photo-1549923746-c502d488b3ea?q=80&w=1600&auto=format&fit=crop",
          "https://images.unsplash.com/photo-1549923686-1ea9789c2f73?q=80&w=1600&auto=format&fit=crop" ]
      rating := 4.7, featured := true },
    { title := "Trailhawk X", brand := "Jeep", model := "Grand Cherokee"
      year := 2021, type := "suv", transmission := "automatic"
      fuel_type := "hybrid", seats := 7, luggage := 5, price_per_day := 190
      images :=
        [ "https://images.unsplash.com/photo-1549921296-3cc26d0e3d36?q=80&w=1600&auto=format&fit=crop",
          "https://images.unsplash.com/photo-1519648023493-d82b5f8d7fd2?q=80&w=1600&auto=format&fit=crop" ]
      rating := 4.4, featured := false } ]

/-- `ensure_seed` (main.py lines 133-137) acting on the optional database
handle carrying the `car` collection: no-op when the database is absent,
otherwise `insert_many(SAMPLE_CARS)` exactly when `count_documents({})`
is zero. -/
def ensure_seed : Option (List Car) → Option (List Car)
  | none => none
  | some cars =>
    if cars.length = 0 then some (cars ++ SAMPLE_CARS) else some cars

/-- A value stored in a document field: the cases `serialize_doc`
distinguishes (an ObjectId, a datetime, anything else).  A datetime value
carries its ISO-8601 rendering, so `isoformat()` is the projection to that
string. -/
inductive DocVal where
  | oid (s : String)
  | vstr (s : String)
  | vdatetime (iso : String)
  | vint (n : Int)
  | vbool (b : Bool)
  | vnull
deriving DecidableEq, Repr

/-- Python truthiness of a document value, as used by `doc.get("_id")` in the
guard of `serialize_doc` (an `ObjectId` instance is always truthy). -/
def DocVal.truthy : DocVal → Bool
  | .oid _ => true
  | .vstr s => !(s == "")
  | .vdatetime _ => true
  | .vint n => !(n == 0)
  | .vbool b => b
  | .vnull => false

/-- Python's `str(...)` on a document value (applied to the popped `_id`;
`str(ObjectId)` is its hex string). -/
def DocVal.pyStr : DocVal → String
  | .oid s => s
  | .vstr s => s
  | .vdatetime iso => iso
  | .vint n => toString n
  | .vbool b => if b then "True" else "False"
  | .vnull => "None"

/-- The `datetime → isoformat text` rewrite the final loop of
`serialize_doc` applies to each field value. -/
def DocVal.isoRender : DocVal → DocVal
  | .vdatetime iso => .vstr iso
  | v => v

/-- A stored document: an insertion-ordered dictionary, modelled as an
association list of field name and value. -/
abbrev Doc : Type := List (String × DocVal)

/-- Dictionary read `doc.get(k)`: first entry with key `k`. -/
def lookupField (k : String) (d : Doc) : Option DocVal :=
  (List.find? (fun kv => kv.1 == k) d).map (fun kv => kv.2)

/-- Dictionary `doc.pop(k)`: the entries whose key is not `k`. -/
def removeField (k : String) (d : Doc) : Doc :=
  List.filter (fun kv => !(kv.1 == k)) d

/-- Dictionary write `doc[k] = v`: replace in place when the key exists,
otherwise append at the end (dict insertion order). -/
def setField (d : Doc) (k : String) (v : DocVal) : Doc :=
  if List.any d (fun kv => kv.1 == k) then
    List.map (fun kv => if kv.1 == k then (k, v) else kv) d
  else d ++ [(k, v)]

/-- `serialize_doc` (main.py lines 40-48): empty documents pass through;
otherwise `doc["id"] = str(doc.pop("_id")) if doc.get("_id") else None`
followed by the loop rendering every datetime value to ISO text. -/
def serialize_doc (d : Doc) : Doc :=
  if List.isEmpty d then d
  else
    List.map (fun kv => (kv.1, DocVal.isoRender kv.2))
      (match lookupField "_id" d with
       | some v =>
         if v.truthy then setField (removeField "_id" d) "id" (.vstr v.pyStr)
         else setField d "id" .vnull
       | none => setField d "id" .vnull)

/-! Concrete values used by witnesses and counterexamples. -/

/-- A structurally valid object id (24 hex characters). -/
def oid0 : String := "0123456789abcdef01234567"

/-- A schema-valid car: the first seed car without its image list. -/
def car0 : Car :=
  { title := "Apex GT-R", brand := "Nissan", model := "GT-R Nismo"
    year := 2022, type := "coupe", transmission := "automatic"
    fuel_type := "petrol", seats := 4, luggage := 2, price_per_day := 320
    rating := 4.8, featured := true }

/-- A one-car `car` collection keyed by `oid0`. -/
def cars0 : List (String × Car) := [(oid0, car0)]

/-- A five-day booking request for `car0`, no client-supplied extras. -/
def p0 : Booking :=
  { car_id := oid0, user_name := "Ann", email := "ann@example.com"
    pickup_date := 10, dropoff_date := 15 }

/-- A request starting exactly on the day an existing booking ends. -/
def p1 : Booking :=
  { car_id := oid0, user_name := "Ann", email := "ann@example.com"
    pickup_date := 15, dropoff_date := 20 }

/-- A request whose dropoff precedes its pickup (day count is negative). -/
def p3 : Booking :=
  { car_id := oid0, user_name := "Ann", email := "ann@example.com"
    pickup_date := 15, dropoff_date := 10 }

/-- A request that supplies its own `total_cost` value. -/
def p10 : Booking :=
  { car_id := oid0, user_name := "Ann", email := "ann@example.com"
    pickup_date := 10, dropoff_date := 15, total_cost := some 999 }

/-- A stored active booking for `car0` over days 10 to 15. -/
def bk1 : BookingDoc :=
  { car_id := oid0, user_name := "Bo", email := "bo@example.com", phone := none
    pickup_date := 10, dropoff_date := 15, pickup_location := none
    dropoff_location := none, total_cost := 100, status := "active" }

/-- A stored active booking for `car0` spanning days 1 to 31. -/
def bk3 : BookingDoc :=
  { car_id := oid0, user_name := "Bo", email := "bo@example.com", phone := none
    pickup_date := 1, dropoff_date := 31, pickup_location := none
    dropoff_location := none, total_cost := 100, status := "active" }

/-- A stored document with an object id, a plain field and a datetime. -/
def doc0 : Doc :=
  [ ("_id", .oid "6123456789abcdef01234567"),
    ("name", .vstr "x"),
    ("created_at", .vdatetime "2024-01-01T00:00:00") ]

/-! Helper lemmas about the sort model. -/

theorem mem_insertLe (le : Car → Car → Bool) (c x : Car) (l : List Car) :
    x ∈ insertLe le c l ↔ x = c ∨ x ∈ l := by
  induction l with
  | nil => simp [insertLe]
  | cons d ds ih =>
    rw [insertLe]
    by_cases h : le c d = true
    · rw [if_pos h]
      simp
    · rw [if_neg h]
      simp only [List.mem_cons, ih]
      tauto

theorem pairwise_insertLe (le : Car → Car → Bool)
    (htot : ∀ a b, le a b = true ∨ le b a = true)
    (htrans : ∀ a b c, le a b = true → le b c = true → le a c = true)
    (c : Car) (l : List Car) (h : l.Pairwise (fun a b => le a b = true)) :
    (insertLe le c l).Pairwise (fun a b => le a b = true) := by
  induction l with
  | nil => simp [insertLe]
  | cons d ds ih =>
    rw [List.pairwise_cons] at h
    obtain ⟨hd, hds⟩ := h
    rw [insertLe]
    by_cases hcd : le c d = true
    · rw [if_pos hcd]
      refine List.Pairwise.cons ?_ (List.Pairwise.cons hd hds)
      intro x hx
      rcases List.mem_cons.mp hx with rfl | hx
      · exact hcd
      · exact htrans c d x hcd (hd x hx)
    · rw [if_neg hcd]
      refine List.Pairwise.cons ?_ (ih hds)
      intro x hx
      rcases (mem_insertLe le c x ds).mp hx with hxc | hx
      · rw [hxc]
        rcases htot c d with h1 | h1
        · exact absurd h1 hcd
        · exact h1
      · exact hd x hx

theorem mem_sortLe (le : Car → Car → Bool) (x : Car) (l : List Car) :
    x ∈ sortLe le l ↔ x ∈ l := by
  induction l with
  | nil => simp [sortLe]
  | cons c cs ih => rw [sortLe, mem_insertLe]; simp [ih]

theorem pairwise_sortLe (le : Car → Car → Bool)
    (htot : ∀ a b, le a b = true ∨ le b a = true)
    (htrans : ∀ a b c, le a b = true → le b c = true → le a c = true)
    (l : List Car) :
    (sortLe le l).Pairwise (fun a b => le a b = true) := by
  induction l with
  | nil => simp [sortLe]
  | cons c cs ih => exact pairwise_insertLe le htot htrans c _ ih

theorem mem_applyLimit (n : Int) (l : List Car) (x : Car)
    (h : x ∈ applyLimit n l) : x ∈ l := by
  unfold applyLimit at h
  split at h
  · exact h
  · exact (List.take_sublist _ _).mem h

theorem pairwise_applyLimit (R : Car → Car → Prop) (n : Int) (l : List Car)
    (h : l.Pairwise R) : (applyLimit n l).Pairwise R := by
  unfold applyLimit
  split
  · exact h
  · exact h.sublist (List.take_sublist _ _)

theorem mem_list_cars (f : CarQuery) (sort : String) (limit : Int)
    (cars : List Car) (c : Car) (h : c ∈ list_cars f sort limit cars) :
    c ∈ cars ∧ carMatches f c = true := by
  unfold list_cars at h
  exact List.mem_filter.mp ((mem_sortLe _ _ _).mp (mem_applyLimit _ _ _ h))

/-- The candidate claim property for C6, stated once per sort key. -/
theorem sortLe_pairwise_key {β : Type} [LinearOrder β] (key : Car → β)
    (l : List Car) :
    (sortLe (fun a b => decide (key a ≤ key b)) l).Pairwise
      (fun a b => key a ≤ key b) := by
  have := pairwise_sortLe (fun a b => decide (key a ≤ key b))
    (fun a b => by rcases le_total (key a) (key b) with h | h <;>
      [left; right] <;> exact decide_eq_true h)
    (fun a b c h1 h2 =>
      decide_eq_true (le_trans (of_decide_eq_true h1) (of_decide_eq_true h2)))
    l
  exact this.imp (fun h => of_decide_eq_true h)

/-- Claim C6: the search result sequence is ordered according to the sort
key.  Requesting price_asc yields non-decreasing price_per_day, price_desc
non-increasing price_per_day, newest non-increasing year, and popular or any
unrecognized value non-increasing rating. -/
theorem list_cars_sorted (f : CarQuery) (sort : String) (limit : Int)
    (cars : List Car) :
    (sort = "price_asc" →
      (list_cars f sort limit cars).Pairwise
        (fun a b => a.price_per_day ≤ b.price_per_day))
  ∧ (sort = "price_desc" →
      (list_cars f sort limit cars).Pairwise
        (fun a b => b.price_per_day ≤ a.price_per_day))
  ∧ (sort = "newest" →
      (list_cars f sort limit cars).Pairwise (fun a b => b.year ≤ a.year))
  ∧ (sort ≠ "price_asc" → sort ≠ "price_desc" → sort ≠ "newest" →
      (list_cars f sort limit cars).Pairwise
        (fun a b => b.rating ≤ a.rating)) := by
  refine ⟨?_, ?_, ?_, ?_⟩
  · intro hs
    subst hs
    exact pairwise_applyLimit _ _ _
      (sortLe_pairwise_key (fun c => c.price_per_day) _)
  · intro hs
    subst hs
    exact pairwise_applyLimit _ _ _
      ((pairwise_sortLe cmpPriceDesc
        (fun a b => by rcases le_total (b.price_per_day) (a.price_per_day) with h | h <;>
          [left; right] <;> exact decide_eq_true h)
        (fun a b c h1 h2 =>
          decide_eq_true
            (le_trans (of_decide_eq_true h2) (of_decide_eq_true h1)))
        _).imp (fun h => of_decide_eq_true h))
  · intro hs
    subst hs
    exact pairwise_applyLimit _ _ _
      ((pairwise_sortLe cmpNewest
        (fun a b => by rcases le_total (b.year) (a.year) with h | h <;>
          [left; right] <;> exact decide_eq_true h)
        (fun a b c h1 h2 =>
          decide_eq_true
            (le_trans (of_decide_eq_true h2) (of_decide_eq_true h1)))
        _).imp (fun h => of_decide_eq_true h))
  · intro h1 h2 h3
    have hspec : sortSpec sort = cmpPopular := by
      unfold sortSpec
      rw [if_neg (by simp [h1]), if_neg (by simp [h2]), if_neg (by simp [h3])]
    unfold list_cars
    rw [hspec]
    exact pairwise_applyLimit _ _ _
      ((pairwise_sortLe cmpPopular
        (fun a b => by rcases le_total (b.rating) (a.rating) with h | h <;>
          [left; right] <;> exact decide_eq_true h)
        (fun a b c hx hy =>
          decide_eq_true
            (le_trans (of_decide_eq_true hy) (of_decide_eq_true hx)))
        _).imp (fun h => of_decide_eq_true h))

/-! Helper lemmas about the filter model. -/

theorem hasSubCI_nil_left (l : List Char) : hasSubCI [] l = true := by
  cases l with
  | nil => rfl
  | cons c t => rfl

theorem containsCI_empty (hay : String) : containsCI hay "" = true :=
  hasSubCI_nil_left hay.toList

/-- Soundness of the built filter document: a car passing `carMatches`
satisfies every clause the source actually added. -/
theorem carMatches_spec (f : CarQuery) (c : Car) (h : carMatches f c = true) :
    (∀ s, f.q = some s →
        (containsCI c.title s || containsCI c.brand s || containsCI c.model s) = true)
  ∧ (∀ t, f.type = some t → t ≠ "" → c.type = t)
  ∧ (∀ t, f.brand = some t → t ≠ "" → c.brand = t)
  ∧ (∀ t, f.transmission = some t → t ≠ "" → c.transmission = t)
  ∧ (∀ t, f.fuel_type = some t → t ≠ "" → c.fuel_type = t)
  ∧ (∀ n, f.seats = some n → n ≠ 0 → c.seats = n)
  ∧ (∀ m, f.min_price = some m → m ≤ c.price_per_day)
  ∧ (∀ m, f.max_price = some m → c.price_per_day ≤ m) := by
  unfold carMatches at h
  simp only [Bool.and_eq_true] at h
  obtain ⟨⟨⟨⟨⟨⟨⟨h1, h2⟩, h3⟩, h4⟩, h5⟩, h6⟩, h7⟩, h8⟩ := h
  refine ⟨?_, ?_, ?_, ?_, ?_, ?_, ?_, ?_⟩
  · intro s hs
    rw [hs] at h1
    by_cases he : s = ""
    · subst he
      simp [containsCI_empty]
    · simpa [he] using h1
  · intro t ht hne
    rw [ht] at h2
    simpa [hne] using h2
  · intro t ht hne
    rw [ht] at h3
    simpa [hne] using h3
  · intro t ht hne
    rw [ht] at h4
    simpa [hne] using h4
  · intro t ht hne
    rw [ht] at h5
    simpa [hne] using h5
  · intro n hn hne
    rw [hn] at h6
    simpa [hne] using h6
  · intro m hm
    rw [hm] at h7
    exact of_decide_eq_true h7
  · intro m hm
    rw [hm] at h8
    exact of_decide_eq_true h8

/-- Amended claim C5: for every combination of supplied search filters whose
free-text q, when present, is a literal pattern (no regex metacharacter —
the fragment on which the source's case-insensitive `$regex` filter means
substring search, which `hq` below confines the statement to), every Car
returned by the search satisfies every supplied truthy filter: exact matches
for non-empty type, brand, transmission and fuel_type, exact match for
non-zero seats, the inclusive price bounds, and the case-insensitive
substring match of q against title, brand or model.  (Falsy filter values —
an empty string or seats = 0 — are dropped by the source's truthiness
guards, so they constrain nothing; see the counterexample.  A q containing a
metacharacter is interpreted by the store as a regular expression, not a
substring, so it is outside this statement.) -/
theorem list_cars_satisfies_filters (f : CarQuery) (sort : String)
    (limit : Int) (cars : List Car) (c : Car)
    (hq : ∀ s, f.q = some s → regexFree s = true)
    (hc : c ∈ list_cars f sort limit cars) :
    (∀ s, f.q = some s →
        (containsCI c.title s || containsCI c.brand s || containsCI c.model s) = true)
  ∧ (∀ t, f.type = some t → t ≠ "" → c.type = t)
  ∧ (∀ t, f.brand = some t → t ≠ "" → c.brand = t)
  ∧ (∀ t, f.transmission = some t → t ≠ "" → c.transmission = t)
  ∧ (∀ t, f.fuel_type = some t → t ≠ "" → c.fuel_type = t)
  ∧ (∀ n, f.seats = some n → n ≠ 0 → c.seats = n)
  ∧ (∀ m, f.min_price = some m → m ≤ c.price_per_day)
  ∧ (∀ m, f.max_price = some m → c.price_per_day ≤ m) :=
  carMatches_spec f c (mem_list_cars f sort limit cars c hc).2

/-- Counterexample to claim C5 as stated: with the supplied filter
`seats = 0`, a car with four seats is still returned, so a returned car
need not satisfy every supplied filter exactly. -/
theorem list_cars_filters_counterexample :
    car0 ∈ list_cars { seats := some 0 } "popular" 50 [car0]
      ∧ car0.seats ≠ 0 := by decide

/-- Amended claim C7: filter misuse never surfaces an error; a supplied
non-zero seats value that no stored car has makes the search return the
empty result.  (A supplied seats value of 0 — outside the 1-9 range every
car has — is instead dropped by the source's `if seats:` truthiness guard
and constrains nothing; see the counterexample.) -/
theorem list_cars_unsat_seats_empty (f : CarQuery) (sort : String)
    (limit : Int) (cars : List Car) (n : Int) (hn : f.seats = some n)
    (h0 : n ≠ 0) (hun : ∀ c ∈ cars, c.seats ≠ n) :
    list_cars f sort limit cars = [] := by
  unfold list_cars
  have hnil : cars.filter (carMatches f) = [] := by
    rw [List.filter_eq_nil_iff]
    intro c hc hmatch
    exact hun c hc ((carMatches_spec f c hmatch).2.2.2.2.2.1 n hn h0)
  rw [hnil]
  simp [sortLe, applyLimit]

/-- Counterexample to claim C7 as stated: the unsatisfiable filter value
`seats = 0` does not match nothing — it is ignored, and the search returns
the whole collection. -/
theorem list_cars_unsat_counterexample :
    car0.seats ≠ 0
      ∧ list_cars { seats := some 0 } "popular" 50 [car0] = [car0] := by decide

/-- Witness for the amended C5 at a concrete query and store, with a
metacharacter-free free-text pattern supplied alongside seats and a price
bound. -/
theorem list_cars_satisfies_filters_witness :
    (containsCI car0.title "gt-r" || containsCI car0.brand "gt-r"
        || containsCI car0.model "gt-r") = true
      ∧ car0.seats = 4 ∧ (100 : ℚ) ≤ car0.price_per_day :=
  ⟨(list_cars_satisfies_filters
      { q := some "gt-r", seats := some 4, min_price := some 100 }
      "popular" 50 [car0] car0
      (by intro s hs; injection hs with h; rw [← h]; decide)
      (by decide)).1 "gt-r" rfl,
   (list_cars_satisfies_filters
      { q := some "gt-r", seats := some 4, min_price := some 100 }
      "popular" 50 [car0] car0
      (by intro s hs; injection hs with h; rw [← h]; decide)
      (by decide)).2.2.2.2.2.1 4 rfl (by decide),
   (list_cars_satisfies_filters
      { q := some "gt-r", seats := some 4, min_price := some 100 }
      "popular" 50 [car0] car0
      (by intro s hs; injection hs with h; rw [← h]; decide)
      (by decide)).2.2.2.2.2.2.1 100 rfl⟩

/-- Witness for C6: an ascending price sort of the seed cars, and the
descending-rating fallback for an unrecognized sort value. -/
theorem list_cars_sorted_witness :
    (list_cars {} "price_asc" 50 SAMPLE_CARS).Pairwise
        (fun a b => a.price_per_day ≤ b.price_per_day)
      ∧ (list_cars {} "hello" 50 SAMPLE_CARS).Pairwise
          (fun a b => b.rating ≤ a.rating) :=
  ⟨(list_cars_sorted {} "price_asc" 50 SAMPLE_CARS).1 rfl,
   (list_cars_sorted {} "hello" 50 SAMPLE_CARS).2.2.2
     (by decide) (by decide) (by decide)⟩

/-- Witness for the amended C7: no seed car has 99 seats, so the search
with that filter returns the empty sequence. -/
theorem list_cars_unsat_seats_empty_witness :
    list_cars { seats := some 99 } "popular" 50 SAMPLE_CARS = [] :=
  list_cars_unsat_seats_empty { seats := some 99 } "popular" 50 SAMPLE_CARS 99
    rfl (by decide) (by decide)

/-! Helper lemmas about the booking engine. -/

theorem overlapsReq_iff (p : Booking) (b : BookingDoc) :
    overlapsReq p b = true ↔
      b.car_id = p.car_id ∧ (b.status = "active" ∨ b.status = "confirmed")
        ∧ b.pickup_date ≤ p.dropoff_date ∧ b.dropoff_date ≥ p.pickup_date := by
  simp [overlapsReq, and_assoc, ge_iff_le]

/-- Inversion of the success case of `create_booking`: a success means the
car was found, the persisted document is the payload with the computed cost,
the returned cost is that computed cost, and the returned status is
"confirmed". -/
theorem create_booking_success_inv (cars : List (String × Car))
    (bookings : List BookingDoc) (p : Booking) (doc : BookingDoc)
    (tc : ℚ) (st : String)
    (h : create_booking cars bookings p = .success doc tc st) :
    ∃ car, lookupCar cars p.car_id = some car
      ∧ doc = persistedBooking p
          (round2 (((p.dropoff_date - p.pickup_date : ℤ) : ℚ) * car.price_per_day))
      ∧ tc = round2 (((p.dropoff_date - p.pickup_date : ℤ) : ℚ) * car.price_per_day)
      ∧ st = "confirmed" := by
  unfold create_booking at h
  split at h
  · split at h
    · exact BookingResult.noConfusion h
    · split at h
      · exact BookingResult.noConfusion h
      · split at h
        · exact BookingResult.noConfusion h
        · rename_i car hcar
          injection h with h1 h2 h3
          exact ⟨car, hcar, h1.symm, h2.symm, h3.symm⟩
  · exact BookingResult.noConfusion h

/-- Claim C1: with a structurally valid car id, `create_booking` rejects a
request as a conflict (dates unavailable) if and only if some stored booking
has the same car_id, a status in the set of "active" and "confirmed", and an
interval satisfying the inclusive test existing.pickup ≤ requested.dropoff
and existing.dropoff ≥ requested.pickup.  In particular, an existing booking
ending on day X overlaps a request starting on day X. -/
theorem create_booking_conflict_iff (cars : List (String × Car))
    (bookings : List BookingDoc) (p : Booking)
    (hvalid : ObjectId.isValid p.car_id = true) :
    create_booking cars bookings p = .conflict ↔
      ∃ b ∈ bookings, b.car_id = p.car_id
        ∧ (b.status = "active" ∨ b.status = "confirmed")
        ∧ b.pickup_date ≤ p.dropoff_date ∧ b.dropoff_date ≥ p.pickup_date := by
  unfold create_booking
  rw [if_pos hvalid]
  by_cases hov : 0 < bookings.countP (overlapsReq p)
  · rw [if_pos hov]
    simp only [true_iff]
    obtain ⟨b, hb, hpb⟩ := List.countP_pos_iff.mp hov
    exact ⟨b, hb, (overlapsReq_iff p b).mp hpb⟩
  · rw [if_neg hov]
    constructor
    · intro h
      exfalso
      split at h
      · exact BookingResult.noConfusion h
      · split at h
        · exact BookingResult.noConfusion h
        · exact BookingResult.noConfusion h
    · rintro ⟨b, hb, hprop⟩
      exact absurd
        (List.countP_pos_iff.mpr ⟨b, hb, (overlapsReq_iff p b).mpr hprop⟩) hov

/-- Witness for C1 at the inclusive boundary: the stored booking ends on
day 15 and the request starts on day 15, and the request is rejected as a
conflict. -/
theorem create_booking_conflict_iff_witness :
    bk1.dropoff_date = p1.pickup_date
      ∧ create_booking cars0 [bk1] p1 = .conflict :=
  ⟨rfl, (create_booking_conflict_iff cars0 [bk1] p1 (by decide)).mpr
    ⟨bk1, by decide, by decide⟩⟩

/-- Claim C2: for an accepted booking request, the returned total_cost is
round(days × car.price_per_day, 2) with days the difference of the request's
dates and car the one fetched by the request's car_id. -/
theorem create_booking_total_cost (cars : List (String × Car))
    (bookings : List BookingDoc) (p : Booking) (doc : BookingDoc)
    (tc : ℚ) (st : String) (car : Car)
    (hcar : lookupCar cars p.car_id = some car)
    (h : create_booking cars bookings p = .success doc tc st) :
    tc = round2 (((p.dropoff_date - p.pickup_date : ℤ) : ℚ) * car.price_per_day) := by
  obtain ⟨car', hcar', _, htc, _⟩ := create_booking_success_inv cars bookings p doc tc st h
  rw [hcar] at hcar'
  cases hcar'
  exact htc

/-- Witness for C2: five days at 320 per day yields 1600. -/
theorem create_booking_total_cost_witness :
    (1600 : ℚ)
      = round2 (((p0.dropoff_date - p0.pickup_date : ℤ) : ℚ) * car0.price_per_day) :=
  create_booking_total_cost cars0 [] p0 (persistedBooking p0 1600) 1600
    "confirmed" car0 (by decide) (by decide)

/-- Counterexample to claim C3 as stated: a request with a structurally
valid car id and a non-positive day count is rejected as a conflict, not as
invalid input, when an overlapping stored booking exists — the overlap check
runs first in the source. -/
theorem create_booking_order_counterexample :
    ObjectId.isValid p3.car_id = true
      ∧ p3.dropoff_date - p3.pickup_date ≤ 0
      ∧ create_booking [] [bk3] p3 = .conflict
      ∧ create_booking [] [bk3] p3 ≠ .invalidDates := by decide

/-- Amended claim C3: the day-count check is decided after the overlap
check, not before it.  A request with a structurally valid car id and a
non-positive day count is rejected as invalid input ("drop-off must be after
pickup") exactly when no stored booking matches the overlap query; when one
matches, the conflict rejection takes precedence. -/
theorem create_booking_days_rejection (cars : List (String × Car))
    (bookings : List BookingDoc) (p : Booking)
    (hvalid : ObjectId.isValid p.car_id = true)
    (hdays : p.dropoff_date - p.pickup_date ≤ 0)
    (hno : ∀ b ∈ bookings,
      ¬(b.car_id = p.car_id ∧ (b.status = "active" ∨ b.status = "confirmed")
        ∧ b.pickup_date ≤ p.dropoff_date ∧ b.dropoff_date ≥ p.pickup_date)) :
    create_booking cars bookings p = .invalidDates := by
  unfold create_booking
  rw [if_pos hvalid]
  have hov : ¬ 0 < bookings.countP (overlapsReq p) := by
    intro hc
    obtain ⟨b, hb, hpb⟩ := List.countP_pos_iff.mp hc
    exact hno b hb ((overlapsReq_iff p b).mp hpb)
  rw [if_neg hov, if_pos hdays]

/-- Witness for the amended C3: with no stored bookings, the backwards
request `p3` is rejected as invalid dates. -/
theorem create_booking_days_rejection_witness :
    create_booking cars0 [] p3 = .invalidDates :=
  create_booking_days_rejection cars0 [] p3 (by decide) (by decide) (by simp)

/-- Claim C4: a successfully created booking whose payload carries the
schema-defaulted status "active" (the client supplied none) is reported with
status "confirmed" in the response while the persisted document's status
field reads "active"; the two differ. -/
theorem create_booking_status_mismatch (cars : List (String × Car))
    (bookings : List BookingDoc) (p : Booking) (doc : BookingDoc)
    (tc : ℚ) (st : String)
    (hdefault : p.status = "active")
    (h : create_booking cars bookings p = .success doc tc st) :
    st = "confirmed" ∧ doc.status = "active" ∧ st ≠ doc.status := by
  obtain ⟨car, _, hdoc, _, hst⟩ := create_booking_success_inv cars bookings p doc tc st h
  subst hdoc
  refine ⟨hst, ?_, ?_⟩
  · simp [persistedBooking, hdefault]
  · rw [hst]
    simp [persistedBooking, hdefault]

/-- Witness for C4: the response says "confirmed" while the stored row reads
"active". -/
theorem create_booking_status_mismatch_witness :
    "confirmed" = "confirmed"
      ∧ (persistedBooking p0 1600).status = "active"
      ∧ ("confirmed" : String) ≠ (persistedBooking p0 1600).status :=
  create_booking_status_mismatch cars0 [] p0 (persistedBooking p0 1600) 1600
    "confirmed" rfl (by decide)

/-- Claim C10: the persisted booking document's total_cost is the computed
round(days × car.price_per_day, 2), for every payload — including one whose
client-supplied total_cost differs, which is overwritten before the insert. -/
theorem create_booking_cost_overwrite (cars : List (String × Car))
    (bookings : List BookingDoc) (p : Booking) (doc : BookingDoc)
    (tc : ℚ) (st : String) (car : Car)
    (hcar : lookupCar cars p.car_id = some car)
    (h : create_booking cars bookings p = .success doc tc st) :
    doc.total_cost
      = round2 (((p.dropoff_date - p.pickup_date : ℤ) : ℚ) * car.price_per_day) := by
  obtain ⟨car', hcar', hdoc, _, _⟩ := create_booking_success_inv cars bookings p doc tc st h
  rw [hcar] at hcar'
  cases hcar'
  rw [hdoc]
  rfl

/-- Witness for C10: the payload supplies total_cost 999, yet the persisted
document carries the computed 1600. -/
theorem create_booking_cost_overwrite_witness :
    p10.total_cost = some 999
      ∧ (persistedBooking p10 1600).total_cost
          = round2 (((p10.dropoff_date - p10.pickup_date : ℤ) : ℚ) * car0.price_per_day)
      ∧ (persistedBooking p10 1600).total_cost = 1600 :=
  ⟨rfl,
   create_booking_cost_overwrite cars0 [] p10 (persistedBooking p10 1600) 1600
     "confirmed" car0 (by decide) (by decide),
   rfl⟩

/-! Seed idempotence. -/

/-- Claim C8: seed insertion is idempotent in sequential execution.  The
sample cars are inserted only when the car collection's document count is
zero, so a non-empty collection is left unchanged, and running `ensure_seed`
twice has the same effect as running it once. -/
theorem ensure_seed_idempotent (s : Option (List Car)) :
    (∀ cars, s = some cars → cars ≠ [] → ensure_seed s = s)
      ∧ ensure_seed (ensure_seed s) = ensure_seed s := by
  have hsome : ∀ cars : List Car, ensure_seed (some cars)
      = if cars.length = 0 then some (cars ++ SAMPLE_CARS) else some cars :=
    fun _ => rfl
  constructor
  · intro cars hs hne
    subst hs
    rw [hsome, if_neg (by simpa using hne)]
  · cases s with
    | none => rfl
    | some cars =>
      by_cases hc : cars = []
      · subst hc
        have h1 : ensure_seed (some ([] : List Car)) = some SAMPLE_CARS := rfl
        rw [h1, hsome, if_neg (by decide)]
      · have h' : ¬cars.length = 0 := by simpa using hc
        rw [hsome, if_neg h', hsome, if_neg h']

/-- Witness for C8: a one-car collection is left unchanged, and seeding an
empty collection twice equals seeding it once. -/
theorem ensure_seed_idempotent_witness :
    ensure_seed (some [car0]) = some [car0]
      ∧ ensure_seed (ensure_seed (some [])) = ensure_seed (some []) :=
  ⟨(ensure_seed_idempotent (some [car0])).1 [car0] rfl (by decide),
   (ensure_seed_idempotent (some [])).2⟩

/-! Helper lemmas about documents and the serializer. -/

theorem lookupField_mapVal (g : DocVal → DocVal) (k : String) (d : Doc) :
    lookupField k (List.map (fun kv => (kv.1, g kv.2)) d)
      = (lookupField k d).map g := by
  induction d with
  | nil => rfl
  | cons kv t ih =>
    cases h : (kv.1 == k) with
    | true => simp [lookupField, List.find?_cons, h]
    | false => simpa [lookupField, List.find?_cons, h] using ih

theorem lookupField_append_of_none (k : String) (d e : Doc)
    (h : lookupField k d = none) : lookupField k (d ++ e) = lookupField k e := by
  unfold lookupField at *
  rw [List.find?_append, Option.map_eq_none'.mp h]
  rfl

theorem lookupField_append_of_some (k : String) (d e : Doc) (v : DocVal)
    (h : lookupField k d = some v) : lookupField k (d ++ e) = some v := by
  unfold lookupField at *
  rw [List.find?_append]
  obtain ⟨kv, hkv, hv⟩ := Option.map_eq_some'.mp h
  rw [hkv]
  simp [hv]

theorem lookupField_removeField_ne (k k0 : String) (d : Doc) (h : k ≠ k0) :
    lookupField k (removeField k0 d) = lookupField k d := by
  induction d with
  | nil => rfl
  | cons kv t ih =>
    by_cases hk : (kv.1 == k) = true
    · have hne : (kv.1 == k0) = false := by
        have hkk : kv.1 = k := eq_of_beq hk
        rw [hkk]
        simpa using h
      simp [removeField, List.filter_cons, hne, lookupField, List.find?_cons, hk]
    · have hk' : (kv.1 == k) = false := by
        cases hb : (kv.1 == k) with
        | false => rfl
        | true => exact absurd hb hk
      by_cases hk0 : (kv.1 == k0) = true
      · simpa [removeField, List.filter_cons, hk0, lookupField,
          List.find?_cons, hk'] using ih
      · have hk0' : (kv.1 == k0) = false := by
          cases hb : (kv.1 == k0) with
          | false => rfl
          | true => exact absurd hb hk0
        simpa [removeField, List.filter_cons, hk0', lookupField,
          List.find?_cons, hk'] using ih

theorem lookupField_removeField_self (k0 : String) (d : Doc) :
    lookupField k0 (removeField k0 d) = none := by
  induction d with
  | nil => rfl
  | cons kv t ih =>
    cases hk : (kv.1 == k0) with
    | true => simpa [removeField, List.filter_cons, hk] using ih
    | false => simpa [removeField, List.filter_cons, hk, lookupField,
        List.find?_cons] using ih

theorem lookupField_eq_none_all (k : String) (d : Doc)
    (h : lookupField k d = none) : ∀ kv ∈ d, (kv.1 == k) = false := by
  intro kv hkv
  cases hb : (kv.1 == k) with
  | false => rfl
  | true =>
    exfalso
    unfold lookupField at h
    have := List.find?_eq_none.mp (Option.map_eq_none'.mp h) kv hkv
    simp [hb] at this

/-- Claim C9: serializing a stored document (one holding a store-assigned
`_id` object id and no `id` field of its own) renames the identifier to a
string-valued `id` field, deletes the `_id` key, renders every
datetime-valued field as its ISO-8601 text, and leaves every other field's
value unchanged. -/
theorem serialize_doc_spec (d : Doc) (s : String)
    (hid : lookupField "_id" d = some (.oid s))
    (hnoid : lookupField "id" d = none) :
    lookupField "id" (serialize_doc d) = some (.vstr s)
      ∧ lookupField "_id" (serialize_doc d) = none
      ∧ ∀ k, k ≠ "_id" → k ≠ "id" →
          lookupField k (serialize_doc d) = (lookupField k d).map DocVal.isoRender := by
  have hisEmpty : List.isEmpty d = false := by
    cases d with
    | nil => exact absurd hid (by simp [lookupField])
    | cons a t => rfl
  have hany : (removeField "_id" d).any (fun kv => kv.1 == "id") = false := by
    rw [List.any_eq_false]
    intro kv hkv
    have hmem : kv ∈ d := List.mem_of_mem_filter hkv
    simp [lookupField_eq_none_all "id" d hnoid kv hmem]
  have hser : serialize_doc d
      = List.map (fun kv => (kv.1, DocVal.isoRender kv.2))
          (removeField "_id" d ++ [("id", DocVal.vstr s)]) := by
    unfold serialize_doc
    rw [if_neg (by simp [hisEmpty]), hid]
    show List.map _ (setField (removeField "_id" d) "id" (.vstr s)) = _
    unfold setField
    rw [if_neg (by simp [hany])]
  refine ⟨?_, ?_, ?_⟩
  · rw [hser, lookupField_mapVal,
      lookupField_append_of_none _ _ _ (by
        rw [lookupField_removeField_ne _ _ _ (by decide)]
        exact hnoid)]
    rfl
  · rw [hser, lookupField_mapVal,
      lookupField_append_of_none _ _ _ (lookupField_removeField_self _ _)]
    rfl
  · intro k hk1 hk2
    rw [hser, lookupField_mapVal]
    cases hkd : lookupField k d with
    | none =>
      rw [lookupField_append_of_none _ _ _ (by
        rw [lookupField_removeField_ne _ _ _ hk1]
        exact hkd)]
      have hidk : ("id" == k) = false := by
        cases hb : ("id" == k) with
        | false => rfl
        | true => exact absurd (eq_of_beq hb).symm hk2
      have : lookupField k [("id", DocVal.vstr s)] = none := by
        unfold lookupField
        simp [List.find?_cons, hidk]
      rw [this]
    | some v =>
      rw [lookupField_append_of_some _ _ _ _ (by
        rw [lookupField_removeField_ne _ _ _ hk1]
        exact hkd)]

/-- Witness for C9 on a concrete stored document with an object id, a plain
string field and a datetime field. -/
theorem serialize_doc_spec_witness :
    lookupField "id" (serialize_doc doc0)
        = some (.vstr "6123456789abcdef01234567")
      ∧ lookupField "_id" (serialize_doc doc0) = none
      ∧ lookupField "created_at" (serialize_doc doc0)
          = (lookupField "created_at" doc0).map DocVal.isoRender :=
  ⟨(serialize_doc_spec doc0 "6123456789abcdef01234567" (by decide) (by decide)).1,
   (serialize_doc_spec doc0 "6123456789abcdef01234567" (by decide) (by decide)).2.1,
   (serialize_doc_spec doc0 "6123456789abcdef01234567" (by decide) (by decide)).2.2
     "created_at" (by decide) (by decide)⟩

end CarRental
